import Mathlib

/-!
Verification development for `travily_server.py`, a small Flask relay in
front of the Tavily search API. The embedding below models the JSON values
the server manipulates, the four payload-building tool functions, the
credential-injecting base search, and the `/tools` dispatch endpoint,
following the Python source line by line. Network traffic is abstracted as
a function from the outbound payload to the remote outcome, and the list of
payloads actually handed to the network layer is threaded through so that
"performs zero network calls" is expressible.
-/

/-- JSON values as Flask/`requests` see them. Numbers are modelled as
integers (every number the claims exercise is integral). -/
inductive Json where
  | null : Json
  | bool (b : Bool) : Json
  | num (n : Int) : Json
  | str (s : String) : Json
  | arr (xs : List Json) : Json
  | obj (fields : List (String × Json)) : Json

/-- A payload is a Python dict with string keys in insertion order. -/
abbrev Payload := List (String × Json)

/-- Python `d.get(k)`: the value at the first matching key, if any. -/
def dictGet (d : Payload) (k : String) : Option Json :=
  (d.find? (fun p => p.1 == k)).map (fun p => p.2)

/-- Python `d[k] = v`: overwrite in place when the key is present,
append at the end otherwise. -/
def dictSet (d : Payload) (k : String) (v : Json) : Payload :=
  if d.any (fun p => p.1 == k) then
    d.map (fun p => if p.1 == k then (k, v) else p)
  else d ++ [(k, v)]

/-- Python `repr()` of a JSON value, as produced for values sitting inside
a container (strings get quoted). -/
def pyStrQ : Json → String
  | .null => "None"
  | .bool true => "True"
  | .bool false => "False"
  | .num n => toString n
  | .str s => "'" ++ s ++ "'"
  | .arr xs => "[" ++ String.intercalate ", " (xs.attach.map (fun x => pyStrQ x.1)) ++ "]"
  | .obj fs => "\x7b" ++ String.intercalate ", " (fs.attach.map (fun p => "'" ++ p.1.1 ++ "': " ++ pyStrQ p.1.2)) ++ "\x7d"
decreasing_by
  · simp_wf
    have h := List.sizeOf_lt_of_mem x.2
    simp only [Json.arr.sizeOf_spec] at *
    omega
  · simp_wf
    have h := List.sizeOf_lt_of_mem p.2
    have h2 : sizeOf p.1.2 ≤ sizeOf p.1 := by
      obtain ⟨⟨a, b⟩, hp⟩ := p
      simp only [Prod.mk.sizeOf_spec]
      omega
    simp only [Json.obj.sizeOf_spec] at *
    omega

/-- Python `str()` as used by the f-strings in the error messages:
`None` renders as `"None"`, booleans capitalised, strings verbatim,
containers via `repr`. -/
def pyStr : Json → String
  | .null => "None"
  | .bool true => "True"
  | .bool false => "False"
  | .num n => toString n
  | .str s => s
  | .arr xs => pyStrQ (Json.arr xs)
  | .obj fs => pyStrQ (Json.obj fs)

/-- Python type names, for the TypeError raised by `f(**params)` when
`params` is not a mapping. -/
def pyTypeName : Json → String
  | .null => "NoneType"
  | .bool _ => "bool"
  | .num _ => "int"
  | .str _ => "str"
  | .arr _ => "list"
  | .obj _ => "dict"

/-- Local ErrorResult construction: `{"error": s}`. -/
def mkError (s : String) : Json := Json.obj [("error", Json.str s)]

/-- Outcome of the single `requests.post` to `https://api.tavily.com/search`:
either the post itself fails (a transport-level `RequestException`), or it
returns a non-2xx status so `raise_for_status` raises an `HTTPError`, or it
succeeds and `response.json()` yields a body. The `details` string stands
for Python's `str(e)` of the raised exception. -/
inductive NetResult where
  | transportError (details : String) : NetResult
  | httpError (details : String) : NetResult
  | success (body : Json) : NetResult

/-- The network layer, abstracted as a function from the outbound JSON
payload to the remote outcome. -/
abbrev Net := Payload → NetResult

/-- The model of `_tavily_base_search` (source lines 53-85). `env` is the
value of the `TAVILY_API_KEY` environment variable (`none` when unset);
Python's `if not api_key` is falsy both for `None` and for the empty
string. The second component of the result is the list of payloads handed
to `requests.post`, so `[]` means zero network calls were performed. -/
def tavily_base_search (env : Option String) (net : Net) (payload : Payload) :
    Json × List Payload :=
  match env with
  | none => (mkError "TAVILY_API_KEY environment variable not set.", [])
  | some api_key =>
    if api_key = "" then
      (mkError "TAVILY_API_KEY environment variable not set.", [])
    else
      let payload2 := dictSet payload "api_key" (Json.str api_key)
      match net payload2 with
      | .success body => (body, [payload2])
      | .transportError d => (mkError ("API request failed: " ++ d), [payload2])
      | .httpError d => (mkError ("API request failed: " ++ d), [payload2])

/-- Payload built by `tavily_search` (source line 91), before credential
injection. -/
def tavily_search_payload (query : Json) : Payload :=
  [("query", query), ("search_depth", Json.str "basic"), ("max_results", Json.num 5)]

/-- Payload built by `tavily_deep_search` (source line 96). -/
def tavily_deep_search_payload (query : Json) : Payload :=
  [("query", query), ("search_depth", Json.str "advanced"), ("max_results", Json.num 8)]

/-- Payload built by `tavily_get_direct_answer` (source line 101). -/
def tavily_get_direct_answer_payload (query : Json) : Payload :=
  [("query", query), ("include_answer", Json.bool true)]

/-- Payload built by `tavily_search_specific_domains` (source line 106). -/
def tavily_search_specific_domains_payload (query domains : Json) : Payload :=
  [("query", query), ("include_domains", domains), ("max_results", Json.num 5)]

/-- The tool function `tavily_search` (source lines 89-92). Python does not
enforce the `query: str` annotation, so the argument is any JSON value. -/
def tavily_search (env : Option String) (net : Net) (query : Json) : Json × List Payload :=
  tavily_base_search env net (tavily_search_payload query)

/-- The tool function `tavily_deep_search` (source lines 94-97). -/
def tavily_deep_search (env : Option String) (net : Net) (query : Json) : Json × List Payload :=
  tavily_base_search env net (tavily_deep_search_payload query)

/-- The tool function `tavily_get_direct_answer` (source lines 99-102). -/
def tavily_get_direct_answer (env : Option String) (net : Net) (query : Json) : Json × List Payload :=
  tavily_base_search env net (tavily_get_direct_answer_payload query)

/-- The tool function `tavily_search_specific_domains` (source lines 104-107). -/
def tavily_search_specific_domains (env : Option String) (net : Net) (query domains : Json) :
    Json × List Payload :=
  tavily_base_search env net (tavily_search_specific_domains_payload query domains)

/-- One entry of the `tools` manifest: a description and the name of the
Python function implementing the tool. -/
structure ToolEntry where
  description : String
  function : String

/-- The `tools` registry (source lines 26-47), in insertion order. -/
def tools : List (String × ToolEntry) :=
  [("search",
    { description := "Performs a standard, fast search using the Tavily AI search engine. Best for general queries and recent events.",
      function := "tavily_search" }),
   ("deep_search",
    { description := "Performs a comprehensive, in-depth search using the Tavily AI search engine. Slower but more thorough. Use for research or complex topics.",
      function := "tavily_deep_search" }),
   ("get_direct_answer",
    { description := "Searches for a direct, conversational answer to a user's question. Use this when the user asks a direct question like 'What is...?' or 'How do I...?'.",
      function := "tavily_get_direct_answer" }),
   ("search_specific_domains",
    { description := "Performs a search focused only on a specific list of domains. Provide the query and a list of websites to search within.",
      function := "tavily_search_specific_domains" })]

/-- The four module-level tool implementations that `globals().get` can
resolve; these are exactly the names the registry references. -/
inductive Builder where
  | search : Builder
  | deep_search : Builder
  | get_direct_answer : Builder
  | search_specific_domains : Builder

/-- The model of `globals().get(function_name)` (source line 148), restricted
to the four public tool functions: every other name either is absent or is
not one of the tool implementations the dispatch can invoke. -/
def globalsGet : String → Option Builder
  | "tavily_search" => some Builder.search
  | "tavily_deep_search" => some Builder.deep_search
  | "tavily_get_direct_answer" => some Builder.get_direct_answer
  | "tavily_search_specific_domains" => some Builder.search_specific_domains
  | _ => none

/-- Python's `__name__` of each builder, used in TypeError messages. -/
def builderFname : Builder → String
  | Builder.search => "tavily_search"
  | Builder.deep_search => "tavily_deep_search"
  | Builder.get_direct_answer => "tavily_get_direct_answer"
  | Builder.search_specific_domains => "tavily_search_specific_domains"

/-- Keyword binding for a one-parameter Python function `fname(n1)` called
as `fname(**kwargs)`: an unexpected keyword or a missing required argument
raises a TypeError, whose message is returned as the error. -/
def bindKw1 (fname n1 : String) (kwargs : List (String × Json)) : Except String Json :=
  match kwargs.find? (fun p => !(p.1 == n1)) with
  | some p => Except.error (fname ++ "() got an unexpected keyword argument '" ++ p.1 ++ "'")
  | none =>
    match dictGet kwargs n1 with
    | some v => Except.ok v
    | none => Except.error (fname ++ "() missing 1 required positional argument: '" ++ n1 ++ "'")

/-- Keyword binding for a two-parameter Python function `fname(n1, n2)`
called as `fname(**kwargs)`. -/
def bindKw2 (fname n1 n2 : String) (kwargs : List (String × Json)) : Except String (Json × Json) :=
  match kwargs.find? (fun p => !(p.1 == n1 || p.1 == n2)) with
  | some p => Except.error (fname ++ "() got an unexpected keyword argument '" ++ p.1 ++ "'")
  | none =>
    match dictGet kwargs n1, dictGet kwargs n2 with
    | some v1, some v2 => Except.ok (v1, v2)
    | none, some _ =>
      Except.error (fname ++ "() missing 1 required positional argument: '" ++ n1 ++ "'")
    | some _, none =>
      Except.error (fname ++ "() missing 1 required positional argument: '" ++ n2 ++ "'")
    | none, none =>
      Except.error (fname ++ "() missing 2 required positional arguments: '" ++ n1 ++ "' and '" ++ n2 ++ "'")

/-- The call `function_to_call(**params)` (source line 157): `params` must be
a mapping, its keys must bind exactly the function's parameters, and only
then does the tool function run. An `Except.error` is the `str()` of the
TypeError that the call raises. -/
def callBuilder (b : Builder) (params : Json) (env : Option String) (net : Net) :
    Except String (Json × List Payload) :=
  match params with
  | Json.obj kwargs =>
    match b with
    | Builder.search =>
      (bindKw1 "tavily_search" "query" kwargs).map (fun q => tavily_search env net q)
    | Builder.deep_search =>
      (bindKw1 "tavily_deep_search" "query" kwargs).map (fun q => tavily_deep_search env net q)
    | Builder.get_direct_answer =>
      (bindKw1 "tavily_get_direct_answer" "query" kwargs).map
        (fun q => tavily_get_direct_answer env net q)
    | Builder.search_specific_domains =>
      (bindKw2 "tavily_search_specific_domains" "query" "domains" kwargs).map
        (fun qd => tavily_search_specific_domains env net qd.1 qd.2)
  | other =>
    Except.error (builderFname b ++ "() argument after ** must be a mapping, not "
      ++ pyTypeName other)

/-- The inbound request body to `POST /tools`: either the body is not valid
JSON (Flask's `request.get_json()` then raises a `BadRequest` that the
handler does not catch), or it parses to a JSON value. -/
inductive Inbound where
  | malformed : Inbound
  | parsed (data : Json) : Inbound

/-- What the handler does with one request: either it returns an HTTP
response (status code plus JSON body, with the list of payloads handed to
the network layer), or an exception escapes the handler to the framework. -/
inductive Outcome where
  | ok (status : Nat) (body : Json) (sent : List Payload) : Outcome
  | raised (exc : String) : Outcome

/-- The status code of an outcome, when the handler produced a response. -/
def statusOf : Outcome → Option Nat
  | Outcome.ok status _ _ => some status
  | Outcome.raised _ => none

/-- The body of an outcome, when the handler produced a response. -/
def bodyOf : Outcome → Option Json
  | Outcome.ok _ body _ => some body
  | Outcome.raised _ => none

/-- The payloads the network layer received while handling the request. -/
def sentOf : Outcome → List Payload
  | Outcome.ok _ _ sent => sent
  | Outcome.raised _ => []

/-- True when the handler returned a response rather than raising. -/
def outcomeIsResponse : Outcome → Bool
  | Outcome.ok _ _ _ => true
  | Outcome.raised _ => false

/-- The model of `handle_tool_call` (source lines 131-161), the
`POST /tools` endpoint. Notes tying each branch to the source:
`data.get('tool')` is `None` when the field is absent; `params` defaults to
the empty dict; `tool_name not in tools` raises an uncaught TypeError when
`tool_name` is unhashable (a JSON array or object); an unregistered (or
non-string, hashable) name yields 404; `globals().get` failing yields 500;
a TypeError from `function_to_call(**params)` is caught and yields 400; and
a valid JSON body that is not an object makes `data.get` raise an uncaught
AttributeError. -/
def handle_tool_call (env : Option String) (net : Net) (inbound : Inbound) : Outcome :=
  match inbound with
  | Inbound.malformed => Outcome.raised "werkzeug.exceptions.BadRequest"
  | Inbound.parsed data =>
    match data with
    | Json.obj fields =>
      let tool_name := (dictGet fields "tool").getD Json.null
      let params := (dictGet fields "params").getD (Json.obj [])
      match tool_name with
      | Json.arr _ => Outcome.raised "TypeError: unhashable type: 'list'"
      | Json.obj _ => Outcome.raised "TypeError: unhashable type: 'dict'"
      | Json.str s =>
        match tools.lookup s with
        | none => Outcome.ok 404 (mkError ("Tool '" ++ s ++ "' not found.")) []
        | some entry =>
          match globalsGet entry.function with
          | none =>
            Outcome.ok 500 (mkError ("Function implementation for '" ++ s ++ "' not found.")) []
          | some b =>
            match callBuilder b params env net with
            | Except.ok (result, sent) => Outcome.ok 200 result sent
            | Except.error d =>
              Outcome.ok 400 (mkError ("Invalid parameters for tool '" ++ s ++ "': " ++ d)) []
      | other => Outcome.ok 404 (mkError ("Tool '" ++ pyStr other ++ "' not found.")) []
    | _ => Outcome.raised "AttributeError: request body is valid JSON but not an object"

/-- Convenience constructor for a well-formed inbound body
`{"tool": s, "params": params}`. -/
def mkInbound (s : String) (params : Json) : Inbound :=
  Inbound.parsed (Json.obj [("tool", Json.str s), ("params", params)])

/-- Registry lookup composed with the `globals()` lookup: the builder the
dispatch will invoke for tool `s`, if any. -/
def resolveTool (s : String) : Option Builder :=
  (tools.lookup s).bind (fun e => globalsGet e.function)

/-- A JSON value Python can hash (and hence use in a dict-membership test):
anything but an array or an object. -/
def hashable : Json → Bool
  | Json.arr _ => false
  | Json.obj _ => false
  | _ => true

/-- Whether a JSON value, used as `tool` in a request, names a registered
tool: only strings can match the registry's string keys. -/
def isRegisteredName : Json → Bool
  | Json.str s => (tools.lookup s).isSome
  | _ => false

/-- The static body served by `GET /.well-known/ai-plugin.json` (source
lines 113-129). -/
def get_plugin_info : Json :=
  Json.obj
    [("schema_version", Json.str "v1"),
     ("name_for_human", Json.str "Tavily Search MCP"),
     ("name_for_model", Json.str "tavily_search"),
     ("description_for_human", Json.str "Server for interacting with the Tavily Search API."),
     ("description_for_model", Json.str "This server provides tools to search the web using the Tavily AI search engine. Use it to find current information."),
     ("api", Json.obj [("type", Json.str "open_api"), ("url", Json.str "/openapi.yaml")])]

/-- A network stub that always succeeds with an empty JSON object, used by
the concrete witnesses. -/
def net0 : Net := fun _ => NetResult.success (Json.obj [])

/-- Defaults-table row "standard" of spec section 4.1, written from the
spec's words for the refinement comparison in C1. -/
def spec_standard_payload (q : String) : Payload :=
  [("query", Json.str q), ("search_depth", Json.str "basic"), ("max_results", Json.num 5)]

/-- Defaults-table row "deep" of spec section 4.1, from the spec's words. -/
def spec_deep_payload (q : String) : Payload :=
  [("query", Json.str q), ("search_depth", Json.str "advanced"), ("max_results", Json.num 8)]

/-- Defaults-table row "direct-answer" of spec section 4.1, from the
spec's words. -/
def spec_direct_answer_payload (q : String) : Payload :=
  [("query", Json.str q), ("include_answer", Json.bool true)]

/-- Defaults-table row "domain-scoped" of spec section 4.1, from the
spec's words. -/
def spec_domain_scoped_payload (q : String) (ds : List String) : Payload :=
  [("query", Json.str q), ("include_domains", Json.arr (ds.map Json.str)),
   ("max_results", Json.num 5)]

/-- A network stub on which every request fails with a non-2xx status, used
by the concrete witnesses. -/
def netFail : Net := fun _ =>
  NetResult.httpError "500 Server Error: Internal Server Error for url: https://api.tavily.com/search"

/-- When `dictGet` misses, the underlying `find?` is `none`. -/
theorem find?_none_of_dictGet_none (p : Payload) (k : String) (h : dictGet p k = none) :
    List.find? (fun q => q.1 == k) p = none := by
  unfold dictGet at h
  cases hf : List.find? (fun q => q.1 == k) p with
  | none => rfl
  | some z => rw [hf] at h; simp at h

/-- Setting a key a dict does not contain appends it at the end. -/
theorem dictSet_of_get_none (p : Payload) (k : String) (v : Json) (h : dictGet p k = none) :
    dictSet p k v = p ++ [(k, v)] := by
  unfold dictSet
  rw [if_neg]
  intro hc
  rw [List.any_eq_true] at hc
  obtain ⟨x, hx, hk⟩ := hc
  exact List.find?_eq_none.mp (find?_none_of_dictGet_none p k h) x hx hk

/-- Looking up a key right after appending it to a dict that lacked it. -/
theorem dictGet_append_self (p : Payload) (k : String) (v : Json) (h : dictGet p k = none) :
    dictGet (p ++ [(k, v)]) k = some v := by
  unfold dictGet
  rw [List.find?_append, find?_none_of_dictGet_none p k h]
  simp [List.find?]

/-- Every payload the base search hands to the network layer carries a
resolved, non-empty server-side credential in its api_key field, provided
the payload did not already contain that key. -/
theorem base_sent_api_key (env : Option String) (net : Net) (p : Payload)
    (hp : dictGet p "api_key" = none) :
    ∀ q ∈ (tavily_base_search env net p).2,
      ∃ k, env = some k ∧ k ≠ "" ∧ dictGet q "api_key" = some (Json.str k) := by
  intro q hq
  cases env with
  | none => simp [tavily_base_search] at hq
  | some k =>
    by_cases hk : k = ""
    · simp [tavily_base_search, hk] at hq
    · refine ⟨k, rfl, hk, ?_⟩
      have hq2 : q = dictSet p "api_key" (Json.str k) := by
        simp only [tavily_base_search, if_neg hk] at hq
        split at hq <;> simpa using hq
      rw [hq2, dictSet_of_get_none p _ _ hp]
      exact dictGet_append_self p _ _ hp

/-- A successful registry lookup yields one of the four tool function
names. -/
theorem tools_lookup_function (s : String) (e : ToolEntry) (h : tools.lookup s = some e) :
    e.function = "tavily_search" ∨ e.function = "tavily_deep_search" ∨
    e.function = "tavily_get_direct_answer" ∨ e.function = "tavily_search_specific_domains" := by
  have hf : (tools.lookup s).map (fun t => t.function) = some e.function := by
    rw [h]
    rfl
  by_cases h1 : s = "search"
  · subst h1
    have h5 : some "tavily_search" = some e.function := hf
    exact Or.inl (Option.some.inj h5).symm
  by_cases h2 : s = "deep_search"
  · subst h2
    have h5 : some "tavily_deep_search" = some e.function := hf
    exact Or.inr (Or.inl (Option.some.inj h5).symm)
  by_cases h3 : s = "get_direct_answer"
  · subst h3
    have h5 : some "tavily_get_direct_answer" = some e.function := hf
    exact Or.inr (Or.inr (Or.inl (Option.some.inj h5).symm))
  by_cases h4 : s = "search_specific_domains"
  · subst h4
    have h5 : some "tavily_search_specific_domains" = some e.function := hf
    exact Or.inr (Or.inr (Or.inr (Option.some.inj h5).symm))
  · exfalso
    have hn : tools.lookup s = none := by
      have e1 : (s == "search") = false := by simp [h1]
      have e2 : (s == "deep_search") = false := by simp [h2]
      have e3 : (s == "get_direct_answer") = false := by simp [h3]
      have e4 : (s == "search_specific_domains") = false := by simp [h4]
      simp [tools, List.lookup, e1, e2, e3, e4]
    rw [hn] at h
    exact Option.noConfusion h

/-- Every registered tool's function name resolves in globals(). -/
theorem tools_lookup_resolves (s : String) (e : ToolEntry) (h : tools.lookup s = some e) :
    (globalsGet e.function).isSome = true := by
  rcases tools_lookup_function s e h with h1 | h1 | h1 | h1 <;> rw [h1] <;> rfl

/-- The standard-search payload carries no api_key field. -/
theorem tavily_search_payload_no_key (q : Json) :
    dictGet (tavily_search_payload q) "api_key" = none := rfl

/-- The deep-search payload carries no api_key field. -/
theorem tavily_deep_search_payload_no_key (q : Json) :
    dictGet (tavily_deep_search_payload q) "api_key" = none := rfl

/-- The direct-answer payload carries no api_key field. -/
theorem tavily_get_direct_answer_payload_no_key (q : Json) :
    dictGet (tavily_get_direct_answer_payload q) "api_key" = none := rfl

/-- The domain-scoped payload carries no api_key field. -/
theorem tavily_search_specific_domains_payload_no_key (q ds : Json) :
    dictGet (tavily_search_specific_domains_payload q ds) "api_key" = none := rfl

/-- A successful tool invocation is a base search on a payload that
contained no api_key field of its own. -/
theorem callBuilder_ok_sent (b : Builder) (params : Json) (env : Option String) (net : Net)
    (r : Json) (sent : List Payload)
    (h : callBuilder b params env net = Except.ok (r, sent)) :
    ∃ pl, dictGet pl "api_key" = none ∧ tavily_base_search env net pl = (r, sent) := by
  cases params with
  | null => simp [callBuilder] at h
  | bool b2 => simp [callBuilder] at h
  | num n => simp [callBuilder] at h
  | str s => simp [callBuilder] at h
  | arr xs => simp [callBuilder] at h
  | obj kwargs =>
    cases b with
    | search =>
      cases hb : bindKw1 "tavily_search" "query" kwargs with
      | error d => simp [callBuilder, hb, Except.map] at h
      | ok q =>
        simp [callBuilder, hb, Except.map] at h
        exact ⟨tavily_search_payload q, tavily_search_payload_no_key q, h⟩
    | deep_search =>
      cases hb : bindKw1 "tavily_deep_search" "query" kwargs with
      | error d => simp [callBuilder, hb, Except.map] at h
      | ok q =>
        simp [callBuilder, hb, Except.map] at h
        exact ⟨tavily_deep_search_payload q, tavily_deep_search_payload_no_key q, h⟩
    | get_direct_answer =>
      cases hb : bindKw1 "tavily_get_direct_answer" "query" kwargs with
      | error d => simp [callBuilder, hb, Except.map] at h
      | ok q =>
        simp [callBuilder, hb, Except.map] at h
        exact ⟨tavily_get_direct_answer_payload q, tavily_get_direct_answer_payload_no_key q, h⟩
    | search_specific_domains =>
      cases hb : bindKw2 "tavily_search_specific_domains" "query" "domains" kwargs with
      | error d => simp [callBuilder, hb, Except.map] at h
      | ok qd =>
        simp [callBuilder, hb, Except.map] at h
        exact ⟨tavily_search_specific_domains_payload qd.1 qd.2,
          tavily_search_specific_domains_payload_no_key qd.1 qd.2, h⟩

/-- Whatever the inbound request, every payload the endpoint hands to the
network layer carries a resolved, non-empty server credential as api_key. -/
theorem handle_sent_api_key (env : Option String) (net : Net) (inbound : Inbound) :
    ∀ p ∈ sentOf (handle_tool_call env net inbound),
      ∃ k, env = some k ∧ k ≠ "" ∧ dictGet p "api_key" = some (Json.str k) := by
  intro p hp
  cases inbound with
  | malformed => simp [handle_tool_call, sentOf] at hp
  | parsed data =>
    cases data with
    | null => simp [handle_tool_call, sentOf] at hp
    | bool b2 => simp [handle_tool_call, sentOf] at hp
    | num n => simp [handle_tool_call, sentOf] at hp
    | str s => simp [handle_tool_call, sentOf] at hp
    | arr xs => simp [handle_tool_call, sentOf] at hp
    | obj fields =>
      simp only [handle_tool_call] at hp
      split at hp
      · simp [sentOf] at hp
      · simp [sentOf] at hp
      · split at hp
        · simp [sentOf] at hp
        · split at hp
          · simp [sentOf] at hp
          · split at hp
            · simp only [sentOf] at hp
              rename_i result sent heq
              obtain ⟨pl, hpl, hbase⟩ := callBuilder_ok_sent _ _ env net result sent heq
              have hmem : p ∈ (tavily_base_search env net pl).2 := by
                rw [hbase]
                exact hp
              exact base_sent_api_key env net pl hpl p hmem
            · simp [sentOf] at hp
      · simp [sentOf] at hp

/-- Evaluation of the endpoint on a well-formed `\x7b"tool", "params"\x7d`
body: the registry, globals and call matches laid bare. -/
theorem handle_mkInbound (env : Option String) (net : Net) (s : String) (params : Json) :
    handle_tool_call env net (mkInbound s params) =
      match tools.lookup s with
      | none => Outcome.ok 404 (mkError ("Tool '" ++ s ++ "' not found.")) []
      | some entry =>
        match globalsGet entry.function with
        | none =>
          Outcome.ok 500 (mkError ("Function implementation for '" ++ s ++ "' not found.")) []
        | some b =>
          match callBuilder b params env net with
          | Except.ok (result, sent) => Outcome.ok 200 result sent
          | Except.error d =>
            Outcome.ok 400 (mkError ("Invalid parameters for tool '" ++ s ++ "': " ++ d)) [] := rfl

/-- When the registered tool resolves but the keyword binding raises a
TypeError, the endpoint answers 400 with the invalid-parameters body and
performs no network call. -/
theorem handle_invalid_params (env : Option String) (net : Net) (s : String) (b : Builder)
    (params : Json) (d : String)
    (hres : resolveTool s = some b)
    (herr : callBuilder b params env net = Except.error d) :
    handle_tool_call env net (mkInbound s params)
      = Outcome.ok 400 (mkError ("Invalid parameters for tool '" ++ s ++ "': " ++ d)) [] := by
  obtain ⟨e, hl, hg⟩ := Option.bind_eq_some.mp hres
  simp only [handle_mkInbound, hl, hg, herr]

/-- Params containing an api_key entry never bind: every builder rejects
the call with a TypeError. -/
theorem callBuilder_error_of_api_key (b : Builder) (kwargs : List (String × Json))
    (env : Option String) (net : Net) (v : Json) (hmem : ("api_key", v) ∈ kwargs) :
    ∃ d, callBuilder b (Json.obj kwargs) env net = Except.error d := by
  cases b with
  | search =>
    have hs : (kwargs.find? (fun p => !(p.1 == "query"))).isSome :=
      List.find?_isSome.mpr ⟨("api_key", v), hmem, rfl⟩
    obtain ⟨p0, hp0⟩ := Option.isSome_iff_exists.mp hs
    exact ⟨_, by simp only [callBuilder, bindKw1, hp0]; rfl⟩
  | deep_search =>
    have hs : (kwargs.find? (fun p => !(p.1 == "query"))).isSome :=
      List.find?_isSome.mpr ⟨("api_key", v), hmem, rfl⟩
    obtain ⟨p0, hp0⟩ := Option.isSome_iff_exists.mp hs
    exact ⟨_, by simp only [callBuilder, bindKw1, hp0]; rfl⟩
  | get_direct_answer =>
    have hs : (kwargs.find? (fun p => !(p.1 == "query"))).isSome :=
      List.find?_isSome.mpr ⟨("api_key", v), hmem, rfl⟩
    obtain ⟨p0, hp0⟩ := Option.isSome_iff_exists.mp hs
    exact ⟨_, by simp only [callBuilder, bindKw1, hp0]; rfl⟩
  | search_specific_domains =>
    have hs : (kwargs.find? (fun p => !(p.1 == "query" || p.1 == "domains"))).isSome :=
      List.find?_isSome.mpr ⟨("api_key", v), hmem, rfl⟩
    obtain ⟨p0, hp0⟩ := Option.isSome_iff_exists.mp hs
    exact ⟨_, by simp only [callBuilder, bindKw2, hp0]; rfl⟩

/-- With no resolvable credential the endpoint performs no network call on
any request. -/
theorem handle_sent_empty_of_falsy (env : Option String) (net : Net) (inbound : Inbound)
    (henv : env = none ∨ env = some "") :
    sentOf (handle_tool_call env net inbound) = [] := by
  cases hout : handle_tool_call env net inbound with
  | raised e => rfl
  | ok st body sent =>
    cases sent with
    | nil => rfl
    | cons p rest =>
      exfalso
      have hp : p ∈ sentOf (handle_tool_call env net inbound) := by
        rw [hout]
        simp [sentOf]
      obtain ⟨k, hk, hne, _⟩ := handle_sent_api_key env net inbound p hp
      rcases henv with h | h <;> rw [h] at hk
      · exact Option.noConfusion hk
      · exact hne (Option.some.inj hk).symm

/-- C1: each of the four payload builders, invoked with a query (and, for
the domain-scoped variant, a domain list), produces exactly the fixed
payload of the defaults table of spec section 4.1 - standard:
query/search_depth basic/max_results 5; deep: query/search_depth
advanced/max_results 8; direct-answer: query/include_answer true;
domain-scoped: query/include_domains caller list/max_results 5 - and, being
a Lean function, is a pure function of its input; before credential
injection no api_key field (nor any other field) is present. -/
theorem C1_payload_defaults (q : String) (ds : List String) :
    tavily_search_payload (Json.str q) = spec_standard_payload q
    ∧ tavily_deep_search_payload (Json.str q) = spec_deep_payload q
    ∧ tavily_get_direct_answer_payload (Json.str q) = spec_direct_answer_payload q
    ∧ tavily_search_specific_domains_payload (Json.str q) (Json.arr (ds.map Json.str))
        = spec_domain_scoped_payload q ds
    ∧ dictGet (tavily_search_payload (Json.str q)) "api_key" = none
    ∧ dictGet (tavily_deep_search_payload (Json.str q)) "api_key" = none
    ∧ dictGet (tavily_get_direct_answer_payload (Json.str q)) "api_key" = none
    ∧ dictGet (tavily_search_specific_domains_payload (Json.str q) (Json.arr (ds.map Json.str)))
        "api_key" = none :=
  ⟨rfl, rfl, rfl, rfl, rfl, rfl, rfl, rfl⟩

/-- C2: every payload the dispatch endpoint hands to the network layer
carries the resolved, non-empty server-side credential as its api_key
field; a caller passing api_key inside params is rejected with 400 before
any network call; and when no credential resolves, no payload reaches the
network layer. -/
theorem C2_server_side_credential (env : Option String) (net : Net) (inbound : Inbound)
    (s : String) (b : Builder) (kwargs : List (String × Json)) (v : Json) :
    (∀ p ∈ sentOf (handle_tool_call env net inbound),
        ∃ k, env = some k ∧ k ≠ "" ∧ dictGet p "api_key" = some (Json.str k))
    ∧ (resolveTool s = some b → ("api_key", v) ∈ kwargs →
        statusOf (handle_tool_call env net (mkInbound s (Json.obj kwargs))) = some 400
          ∧ sentOf (handle_tool_call env net (mkInbound s (Json.obj kwargs))) = [])
    ∧ ((env = none ∨ env = some "") → sentOf (handle_tool_call env net inbound) = []) := by
  refine ⟨handle_sent_api_key env net inbound, ?_, handle_sent_empty_of_falsy env net inbound⟩
  intro hres hmem
  obtain ⟨d, hd⟩ := callBuilder_error_of_api_key b kwargs env net v hmem
  rw [handle_invalid_params env net s b _ d hres hd]
  exact ⟨rfl, rfl⟩

/-- Witness for C2 at a concrete request carrying a caller-supplied
api_key. -/
theorem C2_server_side_credential_witness :
    statusOf (handle_tool_call (some "tvly-key") net0
        (mkInbound "search" (Json.obj [("query", Json.str "hi"), ("api_key", Json.str "stolen")])))
      = some 400
    ∧ sentOf (handle_tool_call (some "tvly-key") net0
        (mkInbound "search" (Json.obj [("query", Json.str "hi"), ("api_key", Json.str "stolen")])))
      = [] :=
  (C2_server_side_credential (some "tvly-key") net0
    (mkInbound "search" (Json.obj [("query", Json.str "hi"), ("api_key", Json.str "stolen")]))
    "search" Builder.search
    [("query", Json.str "hi"), ("api_key", Json.str "stolen")] (Json.str "stolen")).2.1
    rfl (by simp)

/-- C3: with no credential configured, submit returns exactly the
missing-key ErrorResult and performs zero network calls. -/
theorem C3_missing_credential (net : Net) (payload : Payload) :
    tavily_base_search none net payload
      = (mkError "TAVILY_API_KEY environment variable not set.", []) := rfl

/-- C9: the missing-credential check triggers on the falsy empty string as
well: with TAVILY_API_KEY set to "", submit returns the missing-key
ErrorResult and performs zero network calls. -/
theorem C9_empty_string_credential (net : Net) (payload : Payload) :
    tavily_base_search (some "") net payload
      = (mkError "TAVILY_API_KEY environment variable not set.", []) := rfl

/-- C4: on any transport error or non-2xx status from the remote API,
submit returns the ErrorResult "API request failed: " followed by the
failure details, and the dispatch endpoint still relays that body with
HTTP 200. -/
theorem C4_remote_failure (k : String) (net : Net) (payload : Payload) (d : String) (q : String) :
    (k ≠ "" →
      (net (dictSet payload "api_key" (Json.str k)) = NetResult.transportError d ∨
        net (dictSet payload "api_key" (Json.str k)) = NetResult.httpError d) →
      tavily_base_search (some k) net payload
        = (mkError ("API request failed: " ++ d), [dictSet payload "api_key" (Json.str k)]))
    ∧ (k ≠ "" →
      net (tavily_search_payload (Json.str q) ++ [("api_key", Json.str k)])
          = NetResult.httpError d →
      handle_tool_call (some k) net (mkInbound "search" (Json.obj [("query", Json.str q)]))
        = Outcome.ok 200 (mkError ("API request failed: " ++ d))
            [tavily_search_payload (Json.str q) ++ [("api_key", Json.str k)]]) := by
  constructor
  · intro hk hnet
    simp only [tavily_base_search, if_neg hk]
    rcases hnet with h | h <;> rw [h]
  · intro hk hnet
    have hbase : tavily_base_search (some k) net (tavily_search_payload (Json.str q))
        = (mkError ("API request failed: " ++ d),
           [tavily_search_payload (Json.str q) ++ [("api_key", Json.str k)]]) := by
      simp only [tavily_base_search, if_neg hk]
      rw [dictSet_of_get_none _ _ _ (tavily_search_payload_no_key (Json.str q))]
      rw [hnet]
    show Outcome.ok 200
        (tavily_base_search (some k) net (tavily_search_payload (Json.str q))).1
        (tavily_base_search (some k) net (tavily_search_payload (Json.str q))).2
      = Outcome.ok 200 (mkError ("API request failed: " ++ d))
          [tavily_search_payload (Json.str q) ++ [("api_key", Json.str k)]]
    rw [hbase]

/-- Witness for C4 on a network that always returns HTTP 500. -/
theorem C4_remote_failure_witness :
    tavily_base_search (some "tvly-key") netFail []
        = (mkError ("API request failed: " ++
             "500 Server Error: Internal Server Error for url: https://api.tavily.com/search"),
           [dictSet [] "api_key" (Json.str "tvly-key")])
    ∧ handle_tool_call (some "tvly-key") netFail
          (mkInbound "search" (Json.obj [("query", Json.str "hello")]))
        = Outcome.ok 200
            (mkError ("API request failed: " ++
               "500 Server Error: Internal Server Error for url: https://api.tavily.com/search"))
            [tavily_search_payload (Json.str "hello") ++ [("api_key", Json.str "tvly-key")]] :=
  ⟨(C4_remote_failure "tvly-key" netFail []
      "500 Server Error: Internal Server Error for url: https://api.tavily.com/search" "hello").1
      (by decide) (Or.inr rfl),
   (C4_remote_failure "tvly-key" netFail []
      "500 Server Error: Internal Server Error for url: https://api.tavily.com/search" "hello").2
      (by decide) rfl⟩

/-- C5 counterexample: a wrongly-typed parameter value (query bound to the
number 5 instead of a string) is NOT rejected with 400 - the endpoint
answers 200, because Python never enforces the `query: str` annotation. -/
theorem C5_counterexample :
    statusOf (handle_tool_call (some "tvly-key") net0
        (mkInbound "search" (Json.obj [("query", Json.num 5)]))) = some 200
    ∧ statusOf (handle_tool_call (some "tvly-key") net0
        (mkInbound "search" (Json.obj [("query", Json.num 5)]))) ≠ some 400 :=
  ⟨rfl, by
    rw [show statusOf (handle_tool_call (some "tvly-key") net0
        (mkInbound "search" (Json.obj [("query", Json.num 5)]))) = some 200 from rfl]
    decide⟩

/-- C5 (amended): when the parameter set fails the builder's keyword
binding - wrong names or wrong arity, the only mismatches that raise a
TypeError - the endpoint answers 400 with body
\x7b"error": "Invalid parameters for tool _: _"\x7d; wrongly-typed values
bound to correct names are forwarded unvalidated. -/
theorem C5_invalid_params (env : Option String) (net : Net) (s : String) (b : Builder)
    (params : Json) (d : String)
    (hres : resolveTool s = some b)
    (herr : callBuilder b params env net = Except.error d) :
    handle_tool_call env net (mkInbound s params)
      = Outcome.ok 400 (mkError ("Invalid parameters for tool '" ++ s ++ "': " ++ d)) [] :=
  handle_invalid_params env net s b params d hres herr

/-- Witness for C5 at an unexpected keyword argument. -/
theorem C5_invalid_params_witness :
    handle_tool_call (some "tvly-key") net0
        (mkInbound "search" (Json.obj [("bogus_field", Json.num 1)]))
      = Outcome.ok 400 (mkError
          "Invalid parameters for tool 'search': tavily_search() got an unexpected keyword argument 'bogus_field'")
        [] :=
  C5_invalid_params (some "tvly-key") net0 "search" Builder.search
    (Json.obj [("bogus_field", Json.num 1)])
    "tavily_search() got an unexpected keyword argument 'bogus_field'" rfl rfl

/-- C6 counterexample: a request whose tool name is an unregistered JSON
array does not get a 404 response - the membership test `tool_name not in
tools` raises an uncaught TypeError (unhashable type). -/
theorem C6_counterexample :
    handle_tool_call (some "tvly-key") net0
        (Inbound.parsed (Json.obj [("tool", Json.arr [Json.str "x"])]))
      = Outcome.raised "TypeError: unhashable type: 'list'"
    ∧ statusOf (handle_tool_call (some "tvly-key") net0
        (Inbound.parsed (Json.obj [("tool", Json.arr [Json.str "x"])]))) ≠ some 404 :=
  ⟨rfl, by intro h; exact Option.noConfusion h⟩

/-- C6 (amended): for every request whose tool name is hashable (not an
array or object) and not a registry key, the endpoint answers HTTP 404
with exactly \x7b"error": "Tool _ not found."\x7d and invokes neither a
builder nor the client. -/
theorem C6_unknown_tool (env : Option String) (net : Net) (fields : List (String × Json))
    (tname : Json)
    (h1 : (dictGet fields "tool").getD Json.null = tname)
    (h2 : hashable tname = true)
    (h3 : isRegisteredName tname = false) :
    handle_tool_call env net (Inbound.parsed (Json.obj fields))
      = Outcome.ok 404 (mkError ("Tool '" ++ pyStr tname ++ "' not found.")) [] := by
  simp only [handle_tool_call, h1]
  cases tname with
  | arr xs => simp [hashable] at h2
  | obj fs => simp [hashable] at h2
  | null => rfl
  | bool b2 => cases b2 <;> rfl
  | num n => rfl
  | str s =>
    have h3' : (tools.lookup s).isSome = false := h3
    have hl : tools.lookup s = none := by
      cases hh : tools.lookup s with
      | none => rfl
      | some e => rw [hh] at h3'; exact Bool.noConfusion h3'
    simp only [hl]
    rfl

/-- Witness for C6 at the unregistered name "unknown_tool". -/
theorem C6_unknown_tool_witness :
    handle_tool_call none net0 (Inbound.parsed (Json.obj [("tool", Json.str "unknown_tool")]))
      = Outcome.ok 404 (mkError "Tool 'unknown_tool' not found.") [] :=
  C6_unknown_tool none net0 [("tool", Json.str "unknown_tool")] (Json.str "unknown_tool")
    rfl rfl rfl

/-- C7 counterexample: a malformed (non-JSON) body does not produce a JSON
response from the handler - `request.get_json()` raises a BadRequest that
escapes the handler to the framework. -/
theorem C7_counterexample :
    handle_tool_call (some "tvly-key") net0 Inbound.malformed
      = Outcome.raised "werkzeug.exceptions.BadRequest"
    ∧ outcomeIsResponse (handle_tool_call (some "tvly-key") net0 Inbound.malformed) = false :=
  ⟨rfl, rfl⟩

/-- C7 (amended): for every request whose body is a JSON object with a
hashable tool value, no failure path raises past the handler: unknown
tool, parameter mismatch, missing credential and remote failure all
produce a JSON response. -/
theorem C7_object_body_responds (env : Option String) (net : Net)
    (fields : List (String × Json))
    (h : hashable ((dictGet fields "tool").getD Json.null) = true) :
    outcomeIsResponse (handle_tool_call env net (Inbound.parsed (Json.obj fields))) = true := by
  simp only [handle_tool_call]
  cases htool : (dictGet fields "tool").getD Json.null with
  | arr xs => rw [htool] at h; simp [hashable] at h
  | obj fs => rw [htool] at h; simp [hashable] at h
  | null => rfl
  | bool b2 => cases b2 <;> rfl
  | num n => rfl
  | str s =>
    cases hl : tools.lookup s with
    | none => simp only [hl, outcomeIsResponse]
    | some entry =>
      cases hg : globalsGet entry.function with
      | none => simp only [hl, hg, outcomeIsResponse]
      | some b =>
        cases hc : callBuilder b ((dictGet fields "params").getD (Json.obj [])) env net with
        | error d => simp only [hl, hg, hc, outcomeIsResponse]
        | ok pr =>
          obtain ⟨r, sn⟩ := pr
          simp only [hl, hg, hc, outcomeIsResponse]

/-- Witness for C7 on an object body naming a registered tool with no
credential configured. -/
theorem C7_object_body_responds_witness :
    outcomeIsResponse (handle_tool_call none net0
        (Inbound.parsed (Json.obj [("tool", Json.str "search")]))) = true :=
  C7_object_body_responds none net0 [("tool", Json.str "search")] rfl

/-- C8: every registered tool's function reference resolves, so the
defensive 500 branch is dead code - the endpoint never returns HTTP 500. -/
theorem C8_no_500 :
    (∀ s e, tools.lookup s = some e → (globalsGet e.function).isSome = true)
    ∧ ∀ (env : Option String) (net : Net) (inbound : Inbound),
        statusOf (handle_tool_call env net inbound) ≠ some 500 := by
  refine ⟨tools_lookup_resolves, ?_⟩
  intro env net inbound h500
  cases inbound with
  | malformed => exact Option.noConfusion h500
  | parsed data =>
    cases data with
    | null => exact Option.noConfusion h500
    | bool b2 => exact Option.noConfusion h500
    | num n => exact Option.noConfusion h500
    | str s => exact Option.noConfusion h500
    | arr xs => exact Option.noConfusion h500
    | obj fields =>
      simp only [handle_tool_call] at h500
      split at h500
      · exact Option.noConfusion h500
      · exact Option.noConfusion h500
      · split at h500
        · simp [statusOf] at h500
        · split at h500
          · rename_i tool s2 heqt x1 entry hlook x2 hglob
            have hres := tools_lookup_resolves _ _ hlook
            rw [hglob] at hres
            exact Bool.noConfusion hres
          · split at h500
            · simp [statusOf] at h500
            · simp [statusOf] at h500
      · simp [statusOf] at h500

/-- Witness for C8 at the "search" registry entry. -/
theorem C8_no_500_witness :
    (globalsGet "tavily_search").isSome = true
    ∧ statusOf (handle_tool_call none net0 (mkInbound "search" (Json.obj []))) ≠ some 500 :=
  ⟨C8_no_500.1 "search"
      { description := "Performs a standard, fast search using the Tavily AI search engine. Best for general queries and recent events.",
        function := "tavily_search" } rfl,
   C8_no_500.2 none net0 (mkInbound "search" (Json.obj []))⟩

/-- C10: a body without a "tool" field flows into the unknown-tool branch:
the extracted name is None, the registry lookup fails, and the response is
HTTP 404 with body \x7b"error": "Tool _ not found."\x7d for the name
None. -/
theorem C10_missing_tool_field (env : Option String) (net : Net)
    (fields : List (String × Json))
    (h : dictGet fields "tool" = none) :
    handle_tool_call env net (Inbound.parsed (Json.obj fields))
      = Outcome.ok 404 (mkError "Tool 'None' not found.") [] := by
  simp only [handle_tool_call, h, Option.getD_none]
  rfl

/-- Witness for C10 on an empty JSON object body. -/
theorem C10_missing_tool_field_witness :
    handle_tool_call (some "tvly-key") net0 (Inbound.parsed (Json.obj []))
      = Outcome.ok 404 (mkError "Tool 'None' not found.") [] :=
  C10_missing_tool_field (some "tvly-key") net0 [] rfl
